import Mathlib

/-!
Shallow embedding of `src/opentrack/tracker.cpp` (the pose-processing core of
opentrack).  Pose components (C++ `double`) are modelled as rationals; the
trigonometric functions of the C math library and the quaternion operations
declared in `tracker.h` (not part of `src/`) are abstract parameters, since no
claim depends on their numerical values.  Every definition mirrors the
corresponding function of `tracker.cpp`; line references are given in the doc
comments.
-/

/-- Pose is a fixed-length container of 6 doubles (tracker.h; spec data model:
indices 0..2 translation, 3 = yaw, 4 = pitch, 5 = roll). -/
abbrev Pose := Fin 6 → ℚ

/-- Per-axis options of a `Mapping` entry (tracker.h as described by the spec
data model: `altp`, `zero`, `invert`, `src`). -/
structure MappingOpts where
  altp : Bool
  zero : ℚ
  invert : Bool
  src : ℤ
deriving DecidableEq

/-- One response curve (the curve capability): `getValue` is the external
curve-evaluation function, `trackingActive` the hysteresis "active" flag set by
`setTrackingActive`. -/
structure FunctionConfig where
  getValue : ℚ → ℚ
  trackingActive : Bool

/-- Model of `setTrackingActive(bool)` on a curve object. -/
def FunctionConfig.setTrackingActive (c : FunctionConfig) (b : Bool) : FunctionConfig :=
  { c with trackingActive := b }

/-- One axis of the `Mappings` set: options plus the primary and alternate
curves. -/
structure Mapping where
  opts : MappingOpts
  curve : FunctionConfig
  curveAlt : FunctionConfig

/-- Global settings consumed by the pipeline (`main_settings`): the
translation-compensation flag `tcomp_p` and the preserve-raw-z flag
`tcomp_tz`. -/
structure MainSettings where
  tcomp_p : Bool
  tcomp_tz : Bool

/-- Abstract interface of the trigonometric functions `cos`/`sin` of the C math
library used by `euler_to_rmat` (tracker.cpp lines 58-63). -/
structure TrigOps where
  cos : ℚ → ℚ
  sin : ℚ → ℚ

/-- Abstract interface of the `Quat` class of tracker.h (not in `src/`): the
spec (§4.1) lists `fromEulerRadians`, `inverse`, composition and
`toEulerDegrees`; the claims use these operations opaquely. -/
structure QuatOps (Q : Type) where
  from_euler_rads : ℚ → ℚ → ℚ → Q
  inv : Q → Q
  mul : Q → Q → Q
  to_euler_degrees : Q → ℚ × ℚ × ℚ

/-- The environment a `Tracker` borrows: quaternion and trig operations, the
settings `s`, and the optional filter capability `pFilter` (`SelectedLibraries`;
`none` means identity pass-through, tracker.cpp lines 97-100). -/
structure Env (Q : Type) where
  qops : QuatOps Q
  trig : TrigOps
  s : MainSettings
  pFilter : Option (Pose → Pose)

/-- Mutable state of a `Tracker` object: the center-request flag `centerp`, the
enable flag `enabledp`, the raw-pose buffer `final_raw`, the raw-source buffer
`newpose`, the centering state `t_b`/`q_b`, the six `Mapping` entries `m`, and
the published poses `output_pose`/`raw_6dof`. -/
structure TrackerState (Q : Type) where
  centerp : Bool
  enabledp : Bool
  final_raw : Pose
  newpose : Pose
  t_b : Fin 3 → ℚ
  q_b : Q
  m : Fin 6 → Mapping
  output_pose : Pose
  raw_6dof : Pose

namespace Tracker

/-- The constant `pi = 3.141592653` of tracker.cpp lines 53 and 115. -/
def pi : ℚ := 3141592653 / 1000000000

/-- Degrees-to-radians factor `d2r = pi / 180` (tracker.cpp line 116). -/
def d2r : ℚ := pi / 180

/-- Model of `Tracker::map` (tracker.cpp lines 41-48): computes
`altp = (pos < 0) == !invertp && axis.opts.altp`, sets the primary curve
active iff `!altp` and the alternate active iff `altp`, then evaluates the
selected curve at `pos` and adds `axis.opts.zero`.  Returns the value and the
updated axis (the C++ code mutates `axis` through a reference). -/
def map (pos : ℚ) (invertp : Bool) (axis : Mapping) : ℚ × Mapping :=
  let altp := (decide (pos < 0) == !invertp) && axis.opts.altp
  let axis := { axis with curve := axis.curve.setTrackingActive (!altp),
                          curveAlt := axis.curveAlt.setTrackingActive altp }
  let fc := if altp then axis.curveAlt else axis.curve
  (fc.getValue pos + axis.opts.zero, axis)

/-- Model of `euler_to_rmat` (tracker.cpp lines 51-73): converts the three
input angles to radians (note `H` reads `input[1]` and `P` reads `input[0]`,
exactly as in the source) and builds the Tait-Bryan XYZ rotation matrix. -/
def euler_to_rmat (trig : TrigOps) (input : Fin 3 → ℚ) : Matrix (Fin 3) (Fin 3) ℚ :=
  let H := input 1 * pi / 180
  let P := input 0 * pi / 180
  let B := input 2 * pi / 180
  let c1 := trig.cos H
  let s1 := trig.sin H
  let c2 := trig.cos P
  let s2 := trig.sin P
  let c3 := trig.cos B
  let s3 := trig.sin B
  Matrix.of ![![c2 * c3, -c2 * s3, s2],
              ![c1 * s3 + c3 * s1 * s2, c1 * c3 - s1 * s2 * s3, -c2 * s1],
              ![s1 * s3 - c1 * c3 * s2, c3 * s1 + c1 * s2 * s3, c1 * c2]]

/-- Model of `Tracker::t_compensate` (tracker.cpp lines 75-87): negates the x
and y components of `xyz`, multiplies the resulting vector by `rmat`, negates
the first two components of the product; the third output component is the
rotated third component when `rz` is false, and the raw `xyz[2]` when `rz` is
true. -/
def t_compensate (rmat : Matrix (Fin 3) (Fin 3) ℚ) (xyz : Fin 3 → ℚ) (rz : Bool) :
    Fin 3 → ℚ :=
  let xyz_ : Fin 3 → ℚ := ![-(xyz 0), -(xyz 1), xyz 2]
  let ret := rmat.mulVec xyz_
  ![-(ret 0), -(ret 1), if rz then xyz 2 else ret 2]

variable {Q : Type}

/-- Step 1 of `Tracker::logic` (tracker.cpp lines 91-93): when `enabledp`, copy
the six raw-source values `newpose` into the raw-pose buffer `final_raw`;
otherwise leave `final_raw` unchanged. -/
def logic_final_raw (st : TrackerState Q) : Pose :=
  if st.enabledp then st.newpose else st.final_raw

/-- Step 2 of `Tracker::logic` (tracker.cpp lines 95-100): apply the filter
capability when present, identity otherwise. -/
def logic_filtered (e : Env Q) (st : TrackerState Q) : Pose :=
  match e.pFilter with
  | some f => f (logic_final_raw st)
  | none => logic_final_raw st

/-- The per-axis invert flags read from the mappings (tracker.cpp lines
102-109). -/
def inverts (st : TrackerState Q) (i : Fin 6) : Bool :=
  (st.m i).opts.invert

/-- Step 3 of `Tracker::logic` (tracker.cpp lines 112-113): multiply each
filtered component by -1 when its invert flag is set. -/
def logic_inverted (e : Env Q) (st : TrackerState Q) : Pose := fun i =>
  logic_filtered e st i * (if inverts st i then -1 else 1)

/-- Step 4 of `Tracker::logic` (tracker.cpp lines 120-121), value part:
`mapped_pose(i) = map(filtered_pose(i), inverts[i], m(i))`. -/
def logic_mapped_pose (e : Env Q) (st : TrackerState Q) : Pose := fun i =>
  (map (logic_inverted e st i) (inverts st i) (st.m i)).1

/-- Step 4 of `Tracker::logic`, state part: the mappings after the six `map`
calls updated the curves' tracking-active flags. -/
def logic_m (e : Env Q) (st : TrackerState Q) : Fin 6 → Mapping := fun i =>
  (map (logic_inverted e st i) (inverts st i) (st.m i)).2

/-- The quaternion built in the centering code of `Tracker::logic`
(lines 128-130 and 136-138): `from_euler_rads` of the mapped yaw, pitch and
roll multiplied by `d2r`. -/
def logic_q_capture (e : Env Q) (st : TrackerState Q) : Q :=
  e.qops.from_euler_rads (logic_mapped_pose e st 3 * d2r)
    (logic_mapped_pose e st 4 * d2r) (logic_mapped_pose e st 5 * d2r)

/-- Step 5 of `Tracker::logic` (tracker.cpp lines 123-131), `centerp` part:
the branch clears the flag; outside the branch it is unchanged. -/
def logic_centerp (st : TrackerState Q) : Bool :=
  if st.centerp then false else st.centerp

/-- Step 5 of `Tracker::logic`, `t_b` part: when `centerp`, latch the first
three post-invert filtered components; otherwise keep the old value. -/
def logic_t_b (e : Env Q) (st : TrackerState Q) : Fin 3 → ℚ :=
  if st.centerp then fun i => logic_inverted e st (Fin.castLE (by omega) i)
  else st.t_b

/-- Step 5 of `Tracker::logic`, `q_b` part: when `centerp`, latch the
quaternion of the mapped yaw/pitch/roll in radians; otherwise keep the old
value. -/
def logic_q_b (e : Env Q) (st : TrackerState Q) : Q :=
  if st.centerp then logic_q_capture e st else st.q_b

/-- Step 6 of `Tracker::logic` (tracker.cpp lines 133-147): subtract the
latched translation, and express the rotation as the euler degrees of
`q * q_b.inv()` (with `q_b` and `t_b` the values after the capture step of the
same pass). -/
def logic_centered (e : Env Q) (st : TrackerState Q) : Pose :=
  let q := logic_q_capture e st
  let q_ := e.qops.mul q (e.qops.inv (logic_q_b e st))
  let ypr := e.qops.to_euler_degrees q_
  ![logic_mapped_pose e st 0 - logic_t_b e st 0,
    logic_mapped_pose e st 1 - logic_t_b e st 1,
    logic_mapped_pose e st 2 - logic_t_b e st 2,
    ypr.1, ypr.2.1, ypr.2.2]

/-- Step 7 of `Tracker::logic` (tracker.cpp lines 149-155): when `tcomp_p`,
`t_compensate` of the rotation matrix of the centered yaw/pitch/roll applied to
the centered translation replaces components 0..2, components 3..5 are taken
from `centered` (the output buffer `centered_` was initialised to `centered`);
when disabled, `centered` is used as-is. -/
def logic_centered_ (e : Env Q) (st : TrackerState Q) : Pose :=
  let centered := logic_centered e st
  if e.s.tcomp_p then
    let out := t_compensate
      (euler_to_rmat e.trig ![centered 3, centered 4, centered 5])
      ![centered 0, centered 1, centered 2] e.s.tcomp_tz
    ![out 0, out 1, out 2, centered 3, centered 4, centered 5]
  else centered

/-- Step 8 of `Tracker::logic` (tracker.cpp lines 159-167): read
`k = m(i).opts.src`; when `k < 0 || k >= 6` the output is 0, otherwise the
source assigns `centered_(i)` (note: the index used is `i`, not `k`). -/
def logic_mapped (e : Env Q) (st : TrackerState Q) : Pose := fun i =>
  let k := (logic_m e st i).opts.src
  if k < 0 || 6 ≤ k then 0 else logic_centered_ e st i

/-- Model of `Tracker::logic` (tracker.cpp lines 89-174): one pipeline pass.
Returns the updated state and the pose sent to the protocol capability
(`libs.pProtocol->pose(mapped)`, line 169); lines 171-173 publish `mapped` and
`final_raw` under the mutex, modelled as the `output_pose` and `raw_6dof`
fields. -/
def logic (e : Env Q) (st : TrackerState Q) : TrackerState Q × Pose :=
  let fr := logic_final_raw st
  let mapped := logic_mapped e st
  ({ st with
      final_raw := fr,
      centerp := logic_centerp st,
      t_b := logic_t_b e st,
      q_b := logic_q_b e st,
      m := logic_m e st,
      output_pose := mapped,
      raw_6dof := fr }, mapped)

/-- The loop period constant `sleep_ms = 3` of `Tracker::run` (tracker.cpp
line 177). -/
def sleep_ms : ℤ := 3

/-- The argument passed to `usleep` in `Tracker::run` (tracker.cpp lines
190-191): `std::max(1L, sleep_ms * 1000L - elapsed/1000L)` with `elapsed` the
pass duration in nanoseconds. -/
def sleep_arg (elapsed : ℤ) : ℤ :=
  max 1 (sleep_ms * 1000 - elapsed / 1000)

/-- One iteration of the worker loop supplies the raw-source sample written by
`libs.pTracker->data(newpose)` and the elapsed time in nanoseconds measured by
the timer for that pass. -/
structure Iteration where
  data : Pose
  elapsed : ℤ

/-- Result of running the worker loop: the final tracker state, the poses sent
to the protocol capability in order, and the arguments passed to `usleep`. -/
structure RunResult (Q : Type) where
  state : TrackerState Q
  calls : List Pose
  sleeps : List ℤ

/-- Modelled from the spec: the default-constructed `Pose p` of tracker.cpp
line 200 (class `Pose` lives in tracker.h, outside `src/`); the spec (§4.4)
calls it "an explicit zero-valued pose", so it is the all-zero pose. -/
def zeroPose : Pose := fun _ => 0

/-- The while-loop of `Tracker::run` (tracker.cpp lines 183-192), unrolled over
the finite list of iterations executed before `should_quit` is observed: each
iteration stores the sample into `newpose`, runs `logic`, and sleeps for
`sleep_arg` of the measured elapsed time. -/
def runLoop (e : Env Q) : List Iteration → TrackerState Q → RunResult Q
  | [], st => ⟨st, [], []⟩
  | it :: its, st =>
    let r := logic e { st with newpose := it.data }
    let rest := runLoop e its r.1
    ⟨rest.state, r.2 :: rest.calls, sleep_arg it.elapsed :: rest.sleeps⟩

/-- The shutdown block of `Tracker::run` (tracker.cpp lines 194-212): zero the
six `newpose` entries, run one last `logic` pass, send the default (zero) pose
directly to the protocol capability, then set both curves of every axis
inactive.  Returns the final state and the two protocol calls of the block. -/
def runShutdown (e : Env Q) (st : TrackerState Q) : TrackerState Q × List Pose :=
  let r := logic e { st with newpose := fun _ => 0 }
  let st1 := r.1
  let st2 := { st1 with m := fun i =>
    { st1.m i with
        curve := (st1.m i).curve.setTrackingActive false,
        curveAlt := (st1.m i).curveAlt.setTrackingActive false } }
  (st2, [r.2, zeroPose])

/-- Model of `Tracker::run` (tracker.cpp lines 176-213): the paced loop until
`should_quit` is observed, followed by the shutdown block. -/
def run (e : Env Q) (its : List Iteration) (st : TrackerState Q) : RunResult Q :=
  let l := runLoop e its st
  let sd := runShutdown e l.state
  ⟨sd.1, l.calls ++ sd.2, l.sleeps⟩

end Tracker

/-- Quaternion operations over the trivial carrier, used to evaluate the model
at concrete inputs; `to_euler_degrees` returns the zero triple. -/
def qopsU : QuatOps Unit :=
  ⟨fun _ _ _ => (), fun _ => (), fun _ _ => (), fun _ => (0, 0, 0)⟩

/-- Concrete trig operations for evaluating the model (cos ≡ 1, sin ≡ 0, the
values at angle zero). -/
def trig0 : TrigOps := ⟨fun _ => 1, fun _ => 0⟩

/-- Concrete environment: trivial quaternions, `trig0`, translation
compensation disabled, no filter capability. -/
def e0 : Env Unit := ⟨qopsU, trig0, ⟨false, false⟩, none⟩

/-- Identity response curve, initially inactive. -/
def idCurve : FunctionConfig := ⟨fun x => x, false⟩

/-- Example mapping set: identity curves, no inversion, zero offsets; axis 0
has `src = 1`, every other axis has `src = i`. -/
def mEx : Fin 6 → Mapping := fun i =>
  ⟨⟨false, 0, false, if i = 0 then 1 else (i : ℤ)⟩, idCurve, idCurve⟩

/-- Example tracker state: enabled, no pending center request, raw source
reading 10 on axis 0 and 20 on axis 1. -/
def stEx : TrackerState Unit :=
  ⟨false, true, fun _ => 0, ![10, 20, 0, 0, 0, 0], fun _ => 0, (), mEx,
    fun _ => 0, fun _ => 0⟩

/-- The example state with the pipeline disabled. -/
def stDis : TrackerState Unit := { stEx with enabledp := false }

/-- Example axis: primary curve x+1, alternate curve x-1, zero offset 5,
alternate curve disabled. -/
def axisEx : Mapping :=
  ⟨⟨false, 5, false, 0⟩, ⟨fun x => x + 1, false⟩, ⟨fun x => x - 1, false⟩⟩

/-- The protocol calls of the worker loop number one per iteration. -/
lemma runLoop_calls_length {Q : Type} (e : Env Q) (its : List Tracker.Iteration)
    (st : TrackerState Q) :
    (Tracker.runLoop e its st).calls.length = its.length := by
  induction its generalizing st with
  | nil => rfl
  | cons it its ih => simp [Tracker.runLoop, ih]

/-- When the pipeline is disabled, the pose a pass sends to the protocol does
not depend on the raw-source buffer contents. -/
lemma logic_call_ignores_newpose_when_disabled {Q : Type} (e : Env Q)
    (st : TrackerState Q) (z w : Pose) (h : st.enabledp = false) :
    (Tracker.logic e { st with newpose := z }).2 =
      (Tracker.logic e { st with newpose := w }).2 := by
  funext i
  simp [Tracker.logic, Tracker.logic_mapped, Tracker.logic_m,
    Tracker.logic_centered_, Tracker.logic_centered, Tracker.logic_q_b,
    Tracker.logic_q_capture, Tracker.logic_t_b, Tracker.logic_mapped_pose,
    Tracker.logic_inverted, Tracker.logic_filtered, Tracker.logic_final_raw,
    Tracker.inverts, h]

/-- C1: the axis-remap step of `Tracker::logic` does not honour `src` as the
source index.  At the concrete input `stEx` (axis 0 configured with
`src = 1`, identity curves, raw values 10 and 20 on axes 0 and 1), the pose
sent to the protocol has value 10 (= `centered_(0)`) at axis 0, whereas the
claim requires `centered_(src)` = `centered_(1)` = 20: the code validates `k`
but then reads `centered_(i)`. -/
theorem remap_ignores_src_at_concrete_input :
    (Tracker.logic e0 stEx).2 0 = 10 ∧
    Tracker.logic_centered_ e0 stEx 1 = 20 ∧
    (stEx.m 0).opts.src = 1 ∧
    (Tracker.logic e0 stEx).2 0 ≠ Tracker.logic_centered_ e0 stEx 1 := by
  refine ⟨?_, ?_, ?_, ?_⟩ <;>
    norm_num [Tracker.logic, Tracker.logic_mapped, Tracker.logic_m,
      Tracker.logic_centered_, Tracker.logic_centered, Tracker.logic_q_b,
      Tracker.logic_q_capture, Tracker.logic_t_b, Tracker.logic_mapped_pose,
      Tracker.logic_inverted, Tracker.logic_filtered, Tracker.logic_final_raw,
      Tracker.inverts, Tracker.map, FunctionConfig.setTrackingActive,
      e0, stEx, mEx, idCurve, qopsU, trig0, Fin.isValue]

/-- C2: `Tracker::map` selects the alternate curve exactly when
`((pos < 0) == !invertp) && axis.opts.altp`, evaluates the selected curve at
`pos` and adds the axis's zero offset; with `invertp = false` and
`altp = false` the result is `curve.getValue pos + zero` for every `pos`. -/
theorem map_evaluates_selected_curve_plus_zero (pos : ℚ) (invertp : Bool)
    (axis : Mapping) :
    (Tracker.map pos invertp axis).1 =
      (if (decide (pos < 0) == !invertp) && axis.opts.altp
        then axis.curveAlt else axis.curve).getValue pos + axis.opts.zero ∧
    (axis.opts.altp = false →
      (Tracker.map pos false axis).1 =
        axis.curve.getValue pos + axis.opts.zero) := by
  constructor
  · cases hb : (decide (pos < 0) == !invertp) && axis.opts.altp <;>
      simp [Tracker.map, hb, FunctionConfig.setTrackingActive]
  · intro h
    simp [Tracker.map, h, FunctionConfig.setTrackingActive]

/-- Witness for C2 at `pos = 2` on `axisEx` (whose `altp` flag is false). -/
theorem map_evaluates_selected_curve_plus_zero_witness :
    (Tracker.map 2 false axisEx).1 = axisEx.curve.getValue 2 + axisEx.opts.zero :=
  (map_evaluates_selected_curve_plus_zero 2 false axisEx).2 rfl

/-- C4: `Tracker::t_compensate` negates the x and y input components,
multiplies by the rotation matrix, re-negates the first two output components;
the third output is the rotated third component when `rz` is false and the
unmodified input third component when `rz` is true. -/
theorem t_compensate_components (rmat : Matrix (Fin 3) (Fin 3) ℚ)
    (xyz : Fin 3 → ℚ) (rz : Bool) :
    Tracker.t_compensate rmat xyz rz 0
        = -(rmat 0 0 * -(xyz 0) + rmat 0 1 * -(xyz 1) + rmat 0 2 * xyz 2) ∧
    Tracker.t_compensate rmat xyz rz 1
        = -(rmat 1 0 * -(xyz 0) + rmat 1 1 * -(xyz 1) + rmat 1 2 * xyz 2) ∧
    (rz = false → Tracker.t_compensate rmat xyz rz 2
        = rmat 2 0 * -(xyz 0) + rmat 2 1 * -(xyz 1) + rmat 2 2 * xyz 2) ∧
    (rz = true → Tracker.t_compensate rmat xyz rz 2 = xyz 2) := by
  refine ⟨?_, ?_, fun h => ?_, fun h => ?_⟩ <;> subst_eqs <;>
    simp [Tracker.t_compensate, Matrix.mulVec, Matrix.dotProduct,
      Fin.sum_univ_three, Matrix.vecHead, Matrix.vecTail, Function.comp,
      Fin.succ_zero_eq_one, Fin.succ_one_eq_two]

/-- Witness for C4: with the identity rotation and `rz = true`, the third
output component is the raw input z. -/
theorem t_compensate_components_witness :
    Tracker.t_compensate 1 ![5, 7, 9] true 2 = 9 := by
  have h := (t_compensate_components 1 ![5, 7, 9] true).2.2.2 rfl
  simpa using h

/-- C6: every invocation of `Tracker::map` notifies both curves of the axis:
the primary curve's tracking-active flag is set to the negation of the
alternate-selection condition and the alternate's to the condition itself, the
selected curve ends up active, and exactly one of the two curves is active
after the call. -/
theorem map_sets_exactly_one_curve_active (pos : ℚ) (invertp : Bool)
    (axis : Mapping) :
    ((Tracker.map pos invertp axis).2.curve.trackingActive
        = !((decide (pos < 0) == !invertp) && axis.opts.altp)) ∧
    ((Tracker.map pos invertp axis).2.curveAlt.trackingActive
        = ((decide (pos < 0) == !invertp) && axis.opts.altp)) ∧
    ((if (decide (pos < 0) == !invertp) && axis.opts.altp
        then (Tracker.map pos invertp axis).2.curveAlt
        else (Tracker.map pos invertp axis).2.curve).trackingActive = true) ∧
    ((Tracker.map pos invertp axis).2.curve.trackingActive = true ↔
      (Tracker.map pos invertp axis).2.curveAlt.trackingActive = false) := by
  cases hb : (decide (pos < 0) == !invertp) && axis.opts.altp <;>
    simp [Tracker.map, hb, FunctionConfig.setTrackingActive]

/-- C7: one pass of `Tracker::logic` sets the raw-pose buffer to the six
raw-source values when the pipeline is enabled, and leaves it unchanged when
disabled. -/
theorem logic_raw_buffer_frame {Q : Type} (e : Env Q) (st : TrackerState Q) :
    (Tracker.logic e st).1.final_raw =
      (if st.enabledp then st.newpose else st.final_raw) := rfl

/-- C3: centering is a one-shot latch.  After any pass the center-request flag
is clear; when the flag was set, the pass latches `t_b` to the post-invert
pre-map filtered translation components and `q_b` to the quaternion of the
mapped yaw/pitch/roll converted to radians; when the flag was not set, `t_b`
and `q_b` are bit-identical to their previous values, so a second pass without
a new request changes nothing. -/
theorem logic_centering_one_shot_latch {Q : Type} (e : Env Q) (st : TrackerState Q) :
    (Tracker.logic e st).1.centerp = false ∧
    (Tracker.logic e st).1.t_b =
      (if st.centerp then
        (fun i => Tracker.logic_inverted e st (Fin.castLE (by omega) i))
      else st.t_b) ∧
    (Tracker.logic e st).1.q_b =
      (if st.centerp then
        e.qops.from_euler_rads (Tracker.logic_mapped_pose e st 3 * Tracker.d2r)
          (Tracker.logic_mapped_pose e st 4 * Tracker.d2r)
          (Tracker.logic_mapped_pose e st 5 * Tracker.d2r)
      else st.q_b) := by
  refine ⟨?_, ?_, ?_⟩ <;> cases h : st.centerp <;>
    simp [Tracker.logic, Tracker.logic_centerp, Tracker.logic_t_b,
      Tracker.logic_q_b, Tracker.logic_q_capture, h]

/-- C5: after the stop flag is observed, the protocol-call trace of
`Tracker::run` consists of the per-iteration calls, then exactly one more
pipeline pass executed with all six raw-source values zeroed, then one direct
all-zero pose sent to the protocol capability; in particular the protocol
receives at least one all-zero pose after the stop. -/
theorem run_stop_sends_zero_pose {Q : Type} (e : Env Q)
    (its : List Tracker.Iteration) (st : TrackerState Q) :
    (Tracker.run e its st).calls =
      (Tracker.runLoop e its st).calls ++
        [(Tracker.logic e
            { (Tracker.runLoop e its st).state with newpose := fun _ => 0 }).2,
          Tracker.zeroPose] ∧
    (Tracker.runLoop e its st).calls.length = its.length ∧
    Tracker.zeroPose ∈ (Tracker.run e its st).calls ∧
    ∀ i : Fin 6, Tracker.zeroPose i = 0 := by
  refine ⟨rfl, runLoop_calls_length e its st, ?_, fun i => rfl⟩
  simp [Tracker.run, Tracker.runShutdown]

/-- C8: step 7 of `Tracker::logic`.  When translation compensation is enabled,
the rotation components 3..5 of the compensated pose equal those of the
centered pose, and the translation components 0..2 are the output of
`t_compensate` applied to the rotation matrix of the centered yaw/pitch/roll,
the centered translation, and the preserve-raw-z flag; when disabled, the
compensated pose is the centered pose on all six axes. -/
theorem logic_tcomp_replaces_translation_only {Q : Type} (e : Env Q)
    (st : TrackerState Q) :
    (e.s.tcomp_p = true →
      Tracker.logic_centered_ e st 3 = Tracker.logic_centered e st 3 ∧
      Tracker.logic_centered_ e st 4 = Tracker.logic_centered e st 4 ∧
      Tracker.logic_centered_ e st 5 = Tracker.logic_centered e st 5 ∧
      Tracker.logic_centered_ e st 0 =
        Tracker.t_compensate
          (Tracker.euler_to_rmat e.trig
            ![Tracker.logic_centered e st 3, Tracker.logic_centered e st 4,
              Tracker.logic_centered e st 5])
          ![Tracker.logic_centered e st 0, Tracker.logic_centered e st 1,
            Tracker.logic_centered e st 2] e.s.tcomp_tz 0 ∧
      Tracker.logic_centered_ e st 1 =
        Tracker.t_compensate
          (Tracker.euler_to_rmat e.trig
            ![Tracker.logic_centered e st 3, Tracker.logic_centered e st 4,
              Tracker.logic_centered e st 5])
          ![Tracker.logic_centered e st 0, Tracker.logic_centered e st 1,
            Tracker.logic_centered e st 2] e.s.tcomp_tz 1 ∧
      Tracker.logic_centered_ e st 2 =
        Tracker.t_compensate
          (Tracker.euler_to_rmat e.trig
            ![Tracker.logic_centered e st 3, Tracker.logic_centered e st 4,
              Tracker.logic_centered e st 5])
          ![Tracker.logic_centered e st 0, Tracker.logic_centered e st 1,
            Tracker.logic_centered e st 2] e.s.tcomp_tz 2) ∧
    (e.s.tcomp_p = false →
      Tracker.logic_centered_ e st = Tracker.logic_centered e st) := by
  constructor
  · intro h
    refine ⟨?_, ?_, ?_, ?_, ?_, ?_⟩ <;> simp [Tracker.logic_centered_, h] <;> rfl
  · intro h
    simp [Tracker.logic_centered_, h]

/-- Witness for C8 in the disabled branch: with `e0` (compensation off) the
compensated pose is the centered pose. -/
theorem logic_tcomp_replaces_translation_only_witness :
    Tracker.logic_centered_ e0 stEx = Tracker.logic_centered e0 stEx :=
  (logic_tcomp_replaces_translation_only e0 stEx).2 rfl

/-- C9: every argument the worker loop passes to `usleep` is at least one
microsecond, and the argument is computed as
`max(1, sleep_ms*1000 - elapsed/1000)`; hence no iteration sleeps a negative
duration even when the pass exceeded the target period. -/
theorem run_sleep_at_least_one_microsecond {Q : Type} (e : Env Q)
    (its : List Tracker.Iteration) (st : TrackerState Q) :
    (∀ x ∈ (Tracker.run e its st).sleeps, 1 ≤ x) ∧
    (∀ elapsed : ℤ,
      Tracker.sleep_arg elapsed =
        max 1 (Tracker.sleep_ms * 1000 - elapsed / 1000) ∧
      1 ≤ Tracker.sleep_arg elapsed) := by
  constructor
  · have hs : ∀ (l : List Tracker.Iteration) (s : TrackerState Q),
        ∀ x ∈ (Tracker.runLoop e l s).sleeps, 1 ≤ x := by
      intro l
      induction l with
      | nil => intro s x hx; simp [Tracker.runLoop] at hx
      | cons it l ih =>
        intro s x hx
        simp only [Tracker.runLoop, List.mem_cons] at hx
        rcases hx with h | h
        · subst h; exact le_max_left _ _
        · exact ih _ x h
    intro x hx
    exact hs its st x hx
  · intro elapsed
    exact ⟨rfl, le_max_left _ _⟩

/-- Witness for C9 at a pass that took 5 milliseconds (5000000 ns), longer
than the 3 ms target period. -/
theorem run_sleep_at_least_one_microsecond_witness :
    (1 : ℤ) ≤ Tracker.sleep_arg 5000000 :=
  (run_sleep_at_least_one_microsecond e0 [⟨Tracker.zeroPose, 5000000⟩] stEx).1
    (Tracker.sleep_arg 5000000)
    (by simp [Tracker.run, Tracker.runLoop])

/-- C10: when the pipeline is disabled at shutdown, the final pass does not
copy the zeroed raw-source values into the raw-pose buffer: the buffer is
unchanged, and the pose the final pass sends to the protocol is the same as
for an arbitrary raw-source buffer content `z`, i.e. the pass processes the
previously acquired raw pose; the all-zero pose reaching the protocol is the
subsequent direct send. -/
theorem runShutdown_disabled_processes_old_raw {Q : Type} (e : Env Q)
    (st : TrackerState Q) (z : Pose) (h : st.enabledp = false) :
    (Tracker.runShutdown e st).2 =
      [(Tracker.logic e { st with newpose := z }).2, Tracker.zeroPose] ∧
    (Tracker.runShutdown e st).1.final_raw = st.final_raw ∧
    (Tracker.logic e { st with newpose := fun _ => 0 }).1.final_raw
      = st.final_raw := by
  refine ⟨?_, ?_, ?_⟩
  · have hz := logic_call_ignores_newpose_when_disabled e st (fun _ => 0) z h
    simp [Tracker.runShutdown, hz]
  · simp [Tracker.runShutdown, Tracker.logic, Tracker.logic_final_raw, h]
  · simp [Tracker.logic, Tracker.logic_final_raw, h]

/-- Witness for C10: the disabled example state keeps its raw-pose buffer
through the shutdown pass. -/
theorem runShutdown_disabled_processes_old_raw_witness :
    (Tracker.runShutdown e0 stDis).1.final_raw = stDis.final_raw :=
  (runShutdown_disabled_processes_old_raw e0 stDis Tracker.zeroPose rfl).2.1
